import Mathlib

/-!
Verification development for the OpenGL raytracing engine repository.

The Rust sources are shallowly embedded:
* `camera.rs` — the `Camera` struct and its transform derivation, over exact
  rationals, with the trigonometric and normalisation primitives abstracted
  into an `Env` record (the code stores `f32` values; the claims settled here
  are structural, about which formula is computed and which branch is taken).
* `main.rs` — the per-frame key fold of the render loop, the shared key-set
  handler of the event loop, and the fault-flag orchestration as a step
  relation.
* `shader.rs` / `util.rs` — the SSBO builder/update protocol, with the GPU
  calls recorded as an explicit operation trace and panics as `Except`.
-/

namespace RTEngine

/-- A 3-component vector with exact rational coordinates (models `glm::Vec3`). -/
structure Vec3 where
  x : ℚ
  y : ℚ
  z : ℚ
deriving DecidableEq, Repr

def Vec3.zero : Vec3 := ⟨0, 0, 0⟩

def Vec3.add (a b : Vec3) : Vec3 := ⟨a.x + b.x, a.y + b.y, a.z + b.z⟩

def Vec3.sub (a b : Vec3) : Vec3 := ⟨a.x - b.x, a.y - b.y, a.z - b.z⟩

/-- Scalar multiple of a vector (models `v * s` on `glm::Vec3`). -/
def Vec3.smul (s : ℚ) (v : Vec3) : Vec3 := ⟨s * v.x, s * v.y, s * v.z⟩

/-- A 4×4 matrix with exact rational entries (models `glm::Mat4`);
`mij` is the entry in row `i`, column `j`. -/
structure Mat4 where
  m00 : ℚ
  m01 : ℚ
  m02 : ℚ
  m03 : ℚ
  m10 : ℚ
  m11 : ℚ
  m12 : ℚ
  m13 : ℚ
  m20 : ℚ
  m21 : ℚ
  m22 : ℚ
  m23 : ℚ
  m30 : ℚ
  m31 : ℚ
  m32 : ℚ
  m33 : ℚ
deriving DecidableEq, Repr

def Mat4.identity : Mat4 :=
  ⟨1, 0, 0, 0,
   0, 1, 0, 0,
   0, 0, 1, 0,
   0, 0, 0, 1⟩

/-- Row-by-column 4×4 matrix product. -/
def Mat4.mul (A B : Mat4) : Mat4 where
  m00 := A.m00 * B.m00 + A.m01 * B.m10 + A.m02 * B.m20 + A.m03 * B.m30
  m01 := A.m00 * B.m01 + A.m01 * B.m11 + A.m02 * B.m21 + A.m03 * B.m31
  m02 := A.m00 * B.m02 + A.m01 * B.m12 + A.m02 * B.m22 + A.m03 * B.m32
  m03 := A.m00 * B.m03 + A.m01 * B.m13 + A.m02 * B.m23 + A.m03 * B.m33
  m10 := A.m10 * B.m00 + A.m11 * B.m10 + A.m12 * B.m20 + A.m13 * B.m30
  m11 := A.m10 * B.m01 + A.m11 * B.m11 + A.m12 * B.m21 + A.m13 * B.m31
  m12 := A.m10 * B.m02 + A.m11 * B.m12 + A.m12 * B.m22 + A.m13 * B.m32
  m13 := A.m10 * B.m03 + A.m11 * B.m13 + A.m12 * B.m23 + A.m13 * B.m33
  m20 := A.m20 * B.m00 + A.m21 * B.m10 + A.m22 * B.m20 + A.m23 * B.m30
  m21 := A.m20 * B.m01 + A.m21 * B.m11 + A.m22 * B.m21 + A.m23 * B.m31
  m22 := A.m20 * B.m02 + A.m21 * B.m12 + A.m22 * B.m22 + A.m23 * B.m32
  m23 := A.m20 * B.m03 + A.m21 * B.m13 + A.m22 * B.m23 + A.m23 * B.m33
  m30 := A.m30 * B.m00 + A.m31 * B.m10 + A.m32 * B.m20 + A.m33 * B.m30
  m31 := A.m30 * B.m01 + A.m31 * B.m11 + A.m32 * B.m21 + A.m33 * B.m31
  m32 := A.m30 * B.m02 + A.m31 * B.m12 + A.m32 * B.m22 + A.m33 * B.m32
  m33 := A.m30 * B.m03 + A.m31 * B.m13 + A.m32 * B.m23 + A.m33 * B.m33

/-- Models `glm::translation(&v)`: identity with `v` in the fourth column. -/
def Mat4.translation (v : Vec3) : Mat4 :=
  ⟨1, 0, 0, v.x,
   0, 1, 0, v.y,
   0, 0, 1, v.z,
   0, 0, 0, 1⟩

/-- Models `glm::rotation(angle, &vec3(1,0,0))` with `c = cos angle`, `s = sin angle`. -/
def Mat4.rotationX (c s : ℚ) : Mat4 :=
  ⟨1, 0, 0, 0,
   0, c, -s, 0,
   0, s, c, 0,
   0, 0, 0, 1⟩

/-- Models `glm::rotation(angle, &vec3(0,1,0))` with `c = cos angle`, `s = sin angle`. -/
def Mat4.rotationY (c s : ℚ) : Mat4 :=
  ⟨c, 0, s, 0,
   0, 1, 0, 0,
   -s, 0, c, 0,
   0, 0, 0, 1⟩

/-- Models `glm::rotation(angle, &vec3(0,0,1))` with `c = cos angle`, `s = sin angle`. -/
def Mat4.rotationZ (c s : ℚ) : Mat4 :=
  ⟨c, -s, 0, 0,
   s, c, 0, 0,
   0, 0, 1, 0,
   0, 0, 0, 1⟩

/-- The first three entries of column 0 (`M.column(0).xyz()`). -/
def Mat4.col0xyz (A : Mat4) : Vec3 := ⟨A.m00, A.m10, A.m20⟩

/-- The first three entries of column 1 (`M.column(1).xyz()`). -/
def Mat4.col1xyz (A : Mat4) : Vec3 := ⟨A.m01, A.m11, A.m21⟩

/-- The first three entries of column 2 (`M.column(2).xyz()`). -/
def Mat4.col2xyz (A : Mat4) : Vec3 := ⟨A.m02, A.m12, A.m22⟩

/-- The real-valued primitives the camera code calls (`cos`, `sin`, `tan`, and
the Euclidean norm used by `normalize`), abstracted so the development stays
exact and executable: every claim settled over `Env` holds for the particular
floating-point realisation as a special case. -/
structure Env where
  cosQ : ℚ → ℚ
  sinQ : ℚ → ℚ
  tanQ : ℚ → ℚ
  norm3 : Vec3 → ℚ

/-- Models `v.normalize()`: the vector divided by its norm. -/
def Vec3.normalize (env : Env) (v : Vec3) : Vec3 :=
  Vec3.smul (1 / env.norm3 v) v

/-- Models `glm::perspective(aspect, fovy, near, far)` (the OpenGL right-handed,
[-1,1]-clip convention used by nalgebra-glm). -/
def Mat4.perspective (env : Env) (aspect fovy near far : ℚ) : Mat4 :=
  ⟨1 / (aspect * env.tanQ (fovy / 2)), 0, 0, 0,
   0, 1 / env.tanQ (fovy / 2), 0, 0,
   0, 0, -(far + near) / (far - near), -(2 * far * near) / (far - near),
   0, 0, -1, 0⟩

/-- The rotation product `rotation_y * rotation_x * rotation_z` the camera
builds from its angle vector (`camera.rs` lines 53-58). -/
def rotationOf (env : Env) (a : Vec3) : Mat4 :=
  Mat4.mul
    (Mat4.mul (Mat4.rotationY (env.cosQ a.y) (env.sinQ a.y))
      (Mat4.rotationX (env.cosQ a.x) (env.sinQ a.x)))
    (Mat4.rotationZ (env.cosQ a.z) (env.sinQ a.z))

/-- The `Camera` struct of `camera.rs`: stored parameters and the cached
derived transform and basis vectors. (`aspect_ratio` is embedded as
`aspect`.) -/
structure Camera where
  aspect : ℚ
  pos : Vec3
  ang : Vec3
  fov : ℚ
  z_near : ℚ
  z_far : ℚ
  view_transformation : Mat4
  left : Vec3
  up : Vec3
  front : Vec3
deriving DecidableEq, Repr

/-- Rust `Camera::new()` (`camera.rs` lines 30-43). -/
def Camera.new : Camera where
  aspect := 16 / 9
  pos := Vec3.zero
  ang := Vec3.zero
  fov := 90
  z_near := 1
  z_far := 1000
  view_transformation := Mat4.identity
  left := Vec3.zero
  up := Vec3.zero
  front := Vec3.zero

/-- Rust `Camera::calculate_view_transformation` (`camera.rs` lines 48-73):
translation by `(0,0,-5) - pos`, rotation `R_y * R_x * R_z`, perspective from
the stored optics, combined as `P * R * T`; basis vectors are the normalized
xyz parts of columns 0, 1, 2 of the result. -/
def Camera.calculate_view_transformation (env : Env) (c : Camera) : Camera :=
  let translation_matrix := Mat4.translation (Vec3.sub ⟨0, 0, -5⟩ c.pos)
  let rotation_matrix := rotationOf env c.ang
  let perspective_matrix := Mat4.perspective env c.aspect c.fov c.z_near c.z_far
  let vt := Mat4.mul (Mat4.mul perspective_matrix rotation_matrix) translation_matrix
  { c with
    view_transformation := vt
    left := Vec3.normalize env (Mat4.col0xyz vt)
    up := Vec3.normalize env (Mat4.col1xyz vt)
    front := Vec3.normalize env (Mat4.col2xyz vt) }

/-- Rust `Camera::set_vars` (`camera.rs` lines 80-97): each supplied parameter
overwrites the stored one, then the view transformation is recomputed. -/
def Camera.set_vars (env : Env) (c : Camera) (position angle : Option Vec3)
    (field_of_view near_clipping_plane far_clipping_plane : Option ℚ) : Camera :=
  let c1 := match position with
    | some position_defined => { c with pos := position_defined }
    | none => c
  let c2 := match angle with
    | some angle_defined => { c1 with ang := angle_defined }
    | none => c1
  let c3 := match field_of_view with
    | some fov_defined => { c2 with fov := fov_defined }
    | none => c2
  let c4 := match near_clipping_plane with
    | some near_defined => { c3 with z_near := near_defined }
    | none => c3
  let c5 := match far_clipping_plane with
    | some far_defined => { c4 with z_far := far_defined }
    | none => c4
  Camera.calculate_view_transformation env c5

/-- Rust `Camera::set_view_params` (`camera.rs` lines 102-112). -/
def Camera.set_view_params (env : Env) (c : Camera) (position angle : Vec3)
    (field_of_view near_clipping_plane far_clipping_plane : ℚ) : Camera :=
  Camera.calculate_view_transformation env
    { c with
      pos := position
      ang := angle
      fov := field_of_view
      z_near := near_clipping_plane
      z_far := far_clipping_plane }

/-- Modelled from the spec: `Camera::rts` is called at `main.rs` line 221
(`local_to_world: camera.rts()`) but is not defined in any source file under
`src/`. Spec 4.1 variant 2: "translation by `position` (no offset, no
inversion ...), same rotation composition order, composed with an identity
scale, combined as `Scale · Translation · Rotation`". -/
def Camera.rts (env : Env) (c : Camera) : Mat4 :=
  Mat4.mul Mat4.identity (Mat4.mul (Mat4.translation c.pos) (rotationOf env c.ang))

/-- A diagonal scale matrix, for stating the claim-side composition. -/
def Mat4.scale (v : Vec3) : Mat4 :=
  ⟨v.x, 0, 0, 0,
   0, v.y, 0, 0,
   0, 0, v.z, 0,
   0, 0, 0, 1⟩

/-! ### The render loop's per-frame input handling (`main.rs` lines 79-212) -/

/-- The control keys the render loop's `match key` arms recognise;
`other` stands for every other `VirtualKeyCode`. -/
inductive Key where
  | a
  | d
  | w
  | s
  | space
  | lshift
  | right
  | left
  | up
  | down
  | other
deriving DecidableEq, Repr

/-- Rust `camera_move_speed` (`main.rs` line 83). -/
def cameraMoveSpeed : ℚ := 5

/-- Rust `camera_rotation_speed` (`main.rs` line 84). -/
def cameraRotationSpeed : ℚ := 3

/-- The exact rational value of the `f32` constant `glm::pi::<f32>() / 2.0`
the guards at `main.rs` lines 182 and 187 compare against. -/
def halfPi : ℚ := 13176795 / 8388608

/-- One arm of the render loop's `for key in keys.iter() { match key { ... } }`
(`main.rs` lines 152-193): the accumulator is the pair
`(movement, rotation)`, both zero-initialised at the top of the frame. -/
def keyStep (cam : Camera) (dt : ℚ) (acc : Vec3 × Vec3) (k : Key) : Vec3 × Vec3 :=
  match k with
  | .a => (Vec3.sub acc.1 (Vec3.smul (dt * cameraMoveSpeed) cam.left), acc.2)
  | .d => (Vec3.add acc.1 (Vec3.smul (dt * cameraMoveSpeed) cam.left), acc.2)
  | .w => (Vec3.add acc.1 (Vec3.smul (dt * cameraMoveSpeed) cam.front), acc.2)
  | .s => (Vec3.sub acc.1 (Vec3.smul (dt * cameraMoveSpeed) cam.front), acc.2)
  | .space => (Vec3.add acc.1 (Vec3.smul (dt * cameraMoveSpeed) cam.up), acc.2)
  | .lshift => (Vec3.sub acc.1 (Vec3.smul (dt * cameraMoveSpeed) cam.up), acc.2)
  | .right => (acc.1, { acc.2 with y := acc.2.y + dt * cameraRotationSpeed })
  | .left => (acc.1, { acc.2 with y := acc.2.y - dt * cameraRotationSpeed })
  | .up =>
      if acc.2.x > -halfPi then
        (acc.1, { acc.2 with x := acc.2.x - dt * cameraRotationSpeed })
      else acc
  | .down =>
      if acc.2.x < halfPi then
        (acc.1, { acc.2 with x := acc.2.x + dt * cameraRotationSpeed })
      else acc
  | .other => acc

/-- The frame's `(movement, rotation)` deltas (`main.rs` lines 149-194): both
start at zero; on `if let Ok(keys) = ... .lock()` failure (`none`) the key
fold is skipped entirely and the zeros stand. -/
def frameInput (cam : Camera) (dt : ℚ) (lockResult : Option (List Key)) : Vec3 × Vec3 :=
  match lockResult with
  | none => (Vec3.zero, Vec3.zero)
  | some keys => keys.foldl (keyStep cam dt) (Vec3.zero, Vec3.zero)

/-- The frame's camera update (`main.rs` lines 206-212):
`camera.set_vars(Some(pos + movement), Some(ang + rotation), None, None, None)`. -/
def frameUpdate (env : Env) (cam : Camera) (dt : ℚ) (lockResult : Option (List Key)) : Camera :=
  let deltas := frameInput cam dt lockResult
  Camera.set_vars env cam (some (Vec3.add cam.pos deltas.1))
    (some (Vec3.add cam.ang deltas.2)) none none none

/-! ### The event loop's shared key-set handler (`main.rs` lines 329-347) -/

/-- A keyboard event as the windowing collaborator delivers it. -/
inductive KeyEvent (α : Type) where
  | press (k : α)
  | release (k : α)
deriving DecidableEq, Repr

/-- The `Pressed` arm: `if !keys.contains(&key_code) { keys.push(key_code) }`. -/
def pressKey [DecidableEq α] (keys : List α) (k : α) : List α :=
  if k ∈ keys then keys else keys ++ [k]

/-- The `Released` arm: if present, remove the element at the position of the
first occurrence. -/
def releaseKey [DecidableEq α] (keys : List α) (k : α) : List α :=
  if k ∈ keys then keys.erase k else keys

/-- One keyboard event applied to the shared key vector. -/
def handleEvent [DecidableEq α] (keys : List α) : KeyEvent α → List α
  | .press k => pressKey keys k
  | .release k => releaseKey keys k

/-- The key vector after a whole event sequence, starting from the empty
vector the main thread allocates. -/
def runEvents [DecidableEq α] (evs : List (KeyEvent α)) : List α :=
  evs.foldl handleEvent []

/-- The last event of the sequence concerning `k`: `some true` when it is a
press, `some false` when a release, `none` when no event concerns `k`. -/
def lastAction [DecidableEq α] : List (KeyEvent α) → α → Option Bool
  | [], _ => none
  | e :: evs, k =>
    match lastAction evs k with
    | some b => some b
    | none =>
      match e with
      | .press j => if j = k then some true else none
      | .release j => if j = k then some false else none

/-! ### The fault flag and shutdown orchestration (`main.rs` lines 297-319) -/

/-- The cross-thread shutdown state: `healthy` is the `RwLock<bool>` the
watcher writes, `renderAlive` whether the render worker is still running,
`watcherDone` whether the watcher has already executed its body (it runs it
exactly once, after `join` returns), `exitRequested` whether the event loop
has set `ControlFlow::Exit`. -/
structure SysState where
  healthy : Bool
  renderAlive : Bool
  watcherDone : Bool
  exitRequested : Bool
deriving DecidableEq, Repr

/-- The render worker panics: it stops running (its loop has no normal exit). -/
def renderCrashStep (s : SysState) : SysState := { s with renderAlive := false }

/-- The watcher's body (`main.rs` lines 300-307): after `join` returns not-ok
it writes `false` into the shared flag; it runs at most once. -/
def watcherStep (s : SysState) : SysState :=
  if s.watcherDone then s else { s with healthy := false, watcherDone := true }

/-- One event-loop iteration's health poll (`main.rs` lines 313-319): reading
`false` sets `ControlFlow::Exit`. -/
def pollStep (s : SysState) : SysState :=
  { s with exitRequested := if s.healthy = false then true else s.exitRequested }

/-- A `CloseRequested` window event (`main.rs` lines 324-326). -/
def closeStep (s : SysState) : SysState := { s with exitRequested := true }

/-- The interleaving of the three threads, as far as they touch the shared
flag: the watcher can only act after the render worker has terminated. -/
inductive SysStep : SysState → SysState → Prop where
  | render (s : SysState) : s.renderAlive = true → SysStep s (renderCrashStep s)
  | watcher (s : SysState) : s.renderAlive = false → SysStep s (watcherStep s)
  | poll (s : SysState) : SysStep s (pollStep s)
  | close (s : SysState) : SysStep s (closeStep s)

/-- The process starts healthy, render worker running, watcher blocked. -/
def initialSysState : SysState :=
  { healthy := true, renderAlive := true, watcherDone := false, exitRequested := false }

/-! ### SSBO marshaling (`util.rs` lines 10-22, `shader.rs` lines 242-385) -/

/-- Rust `byte_size_of_array` (`util.rs` lines 10-12): the slice's byte size,
`length * size_of::<T>()`; `recSize` is the element's byte size. -/
def byte_size_of_array (val : List α) (recSize : ℕ) : ℕ :=
  val.length * recSize

/-- Rust `pointer_to_array` (`util.rs` lines 20-22): `&val[0]` — indexing element 0
panics on an empty slice; on a non-empty one the pointer stands for the first
element. -/
def pointer_to_array (val : List α) : Except String α :=
  match val with
  | [] => .error "index out of bounds: the len is 0 but the index is 0"
  | v :: _ => .ok v

/-- One GL call of the SSBO protocol, for recording what reached the GPU. -/
inductive GlOp where
  | bindBuffer (bid : ℕ)
  | bufferData (size : ℕ)
  | mapWrite (size : ℕ)
  | unmap
deriving DecidableEq, Repr

/-- The GPU-visible storage block: its current record contents and the byte
size reserved by `glBufferData` at creation. -/
structure GpuBuffer (T : Type) where
  contents : List T
  reservedBytes : ℕ
deriving DecidableEq, Repr

/-- The `SSBOBuilder` struct (`shader.rs` lines 259-264). -/
structure SSBOBuilder (T : Type) where
  pid : ℕ
  bid : ℕ
  binding : ℕ
  data : List T
deriving DecidableEq, Repr

/-- The `SSBO` struct (`shader.rs` lines 247-253). -/
structure SSBO (T : Type) where
  pid : ℕ
  bid : ℕ
  binding : ℕ
  data : List T
  data_size : ℕ
deriving DecidableEq, Repr

/-- Rust `SSBOBuilder::set_data` (`shader.rs` lines 294-310): computes the byte
size and the pointer to the payload (panicking there if the payload is
empty), then uploads the bytes with `glBufferData`, which also fixes the
buffer's reserved size. Returns the trace of GL calls issued alongside the
outcome; a panic (`Except.error`) issues none. -/
def SSBOBuilder.set_data (b : SSBOBuilder T) (recSize : ℕ) (data : List T) :
    List GlOp × Except String (SSBOBuilder T × GpuBuffer T) :=
  let data_sz := byte_size_of_array data recSize
  match pointer_to_array data with
  | .error e => ([], .error e)
  | .ok _ =>
    ([.bindBuffer b.bid, .bufferData data_sz, .bindBuffer 0],
     .ok (b, { contents := data, reservedBytes := data_sz }))

/-- Rust `SSBOBuilder::link` (`shader.rs` lines 347-355): `data_size` is set to
`0` — the commented-out `byte_size_of_array(&self.data)` is not executed. -/
def SSBOBuilder.link (b : SSBOBuilder T) : SSBO T :=
  { pid := b.pid, bid := b.bid, binding := b.binding, data := b.data, data_size := 0 }

/-- Rust `SSBO::update_data` (`shader.rs` lines 368-385): computes the byte size
and the pointer to the payload (panicking there if the payload is empty),
then maps the buffer and copies `new_data_size` bytes from the start —
unconditionally: the function contains no comparison against the reserved
size. At record granularity the copy overwrites the first
`new_data.length` records (and extends past the reservation when the payload
is larger). -/
def SSBO.update_data (s : SSBO T) (gpu : GpuBuffer T) (recSize : ℕ) (new_data : List T) :
    List GlOp × Except String (SSBO T × GpuBuffer T) :=
  let new_data_size := byte_size_of_array new_data recSize
  match pointer_to_array new_data with
  | .error e => ([], .error e)
  | .ok _ =>
    ([.bindBuffer s.bid, .mapWrite new_data_size, .unmap, .bindBuffer 0],
     .ok (s, { gpu with contents := new_data ++ gpu.contents.drop new_data.length }))

/-! ### Helper lemmas -/

/-- A concrete environment instance, for closed evaluations. -/
def env0 : Env := ⟨fun _ => 1, fun _ => 0, fun _ => 1, fun _ => 1⟩

theorem pressKey_nodup {α : Type} [DecidableEq α] {keys : List α} (h : keys.Nodup) (k : α) :
    (pressKey keys k).Nodup := by
  unfold pressKey
  split
  · exact h
  · next hk => simp [List.nodup_append, h, hk]

theorem releaseKey_nodup {α : Type} [DecidableEq α] {keys : List α} (h : keys.Nodup) (k : α) :
    (releaseKey keys k).Nodup := by
  unfold releaseKey
  split
  · exact h.erase k
  · exact h

theorem handleEvent_nodup {α : Type} [DecidableEq α] {keys : List α} (h : keys.Nodup)
    (e : KeyEvent α) : (handleEvent keys e).Nodup := by
  cases e with
  | press k => exact pressKey_nodup h k
  | release k => exact releaseKey_nodup h k

theorem foldl_handleEvent_nodup {α : Type} [DecidableEq α] {keys : List α} (h : keys.Nodup)
    (evs : List (KeyEvent α)) : (evs.foldl handleEvent keys).Nodup := by
  induction evs generalizing keys with
  | nil => exact h
  | cons e evs ih => exact ih (handleEvent_nodup h e)

theorem mem_pressKey {α : Type} [DecidableEq α] {keys : List α} {a k : α} :
    a ∈ pressKey keys k ↔ a ∈ keys ∨ a = k := by
  unfold pressKey
  split
  · next hk =>
    constructor
    · exact Or.inl
    · rintro (h | rfl)
      · exact h
      · exact hk
  · simp

theorem mem_releaseKey {α : Type} [DecidableEq α] {keys : List α} (h : keys.Nodup) {a k : α} :
    a ∈ releaseKey keys k ↔ a ∈ keys ∧ a ≠ k := by
  unfold releaseKey
  split
  · next hk => exact h.mem_erase_iff.trans (by tauto)
  · next hk =>
    constructor
    · intro ha
      refine ⟨ha, ?_⟩
      rintro rfl
      exact hk ha
    · exact And.left

/-- Membership after a fold of events over a duplicate-free start state is
decided by the last event concerning the identifier. -/
theorem mem_foldl_handleEvent {α : Type} [DecidableEq α] {keys : List α} (h : keys.Nodup)
    (evs : List (KeyEvent α)) (k : α) :
    k ∈ evs.foldl handleEvent keys ↔
      (lastAction evs k = some true ∨ (lastAction evs k = none ∧ k ∈ keys)) := by
  induction evs generalizing keys with
  | nil => simp [lastAction]
  | cons e evs ih =>
    rw [List.foldl_cons, ih (handleEvent_nodup h e)]
    rcases hl : lastAction evs k with _ | b
    · cases e with
      | press j =>
        by_cases hj : j = k
        · subst hj
          simp [lastAction, hl, handleEvent, mem_pressKey]
        · simp [lastAction, hl, hj, handleEvent, mem_pressKey, Ne.symm hj]
      | release j =>
        by_cases hj : j = k
        · subst hj
          simp [lastAction, hl, handleEvent, mem_releaseKey h]
        · simp [lastAction, hl, hj, handleEvent, mem_releaseKey h, Ne.symm hj]
    · simp [lastAction, hl]

theorem sysstep_healthy_mono {s s' : SysState} (h : SysStep s s') (hh : s.healthy = false) :
    s'.healthy = false := by
  cases h with
  | render _ => simpa [renderCrashStep] using hh
  | watcher _ =>
    unfold watcherStep
    split <;> simp [hh]
  | poll => simpa [pollStep] using hh
  | close => simpa [closeStep] using hh

theorem sysstep_healthy_writer {s s' : SysState} (h : SysStep s s')
    (hne : s'.healthy ≠ s.healthy) :
    s' = watcherStep s ∧ s.renderAlive = false ∧ s.watcherDone = false ∧
      s'.healthy = false ∧ s'.watcherDone = true := by
  cases h with
  | render _ => simp [renderCrashStep] at hne
  | watcher hterm =>
    by_cases hw : s.watcherDone = true
    · simp [watcherStep, hw] at hne
    · refine ⟨rfl, hterm, ?_, ?_, ?_⟩ <;> simp [watcherStep, hw]
  | poll => simp [pollStep] at hne
  | close => simp [closeStep] at hne

theorem reflTransGen_healthy_mono {s s' : SysState}
    (h : Relation.ReflTransGen SysStep s s') (hh : s.healthy = false) :
    s'.healthy = false := by
  induction h with
  | refl => exact hh
  | tail _ hstep ih => exact sysstep_healthy_mono hstep ih

/-- The builder state of the demonstration scene: program 7, buffer 1,
binding 0 (`main.rs` lines 117-122 create one for 5 `RTSphere` records). -/
def demoBuilder : SSBOBuilder ℕ := ⟨7, 1, 0, []⟩

/-- The GPU buffer after creation for 5 records of 80 bytes each: 400 bytes
reserved (records stand for their index; the blank ones are `0`). -/
def demoGpu : GpuBuffer ℕ := ⟨[0, 0, 0, 0, 0], 400⟩

/-- The linked `SSBO` handle of the demonstration scene. -/
def demoSSBO : SSBO ℕ := SSBOBuilder.link demoBuilder

/-! ### The claims -/

/-- C1: the claim states that an `SSBO::update_data` call whose payload's byte
size exceeds the byte size reserved at creation is rejected by an
assertion/contract check before any byte is copied, so the buffer contents
are unchanged; in particular an update with one record more than the declared
capacity writes nothing. The code has no such check: creating the buffer for
5 records of 80 bytes reserves 400 bytes, and updating with 6 records (480
bytes) issues the map/copy/unmap sequence and replaces the buffer contents —
the oversized payload is written, not rejected. -/
theorem c1_update_data_overflow_is_not_rejected :
    (SSBOBuilder.set_data demoBuilder 80 [0, 0, 0, 0, 0]).2 = .ok (demoBuilder, demoGpu) ∧
    byte_size_of_array [1, 2, 3, 4, 5, 6] 80 = 480 ∧
    demoGpu.reservedBytes < byte_size_of_array [1, 2, 3, 4, 5, 6] 80 ∧
    SSBO.update_data demoSSBO demoGpu 80 [1, 2, 3, 4, 5, 6] =
      ([.bindBuffer 1, .mapWrite 480, .unmap, .bindBuffer 0],
       .ok (demoSSBO, ⟨[1, 2, 3, 4, 5, 6], 400⟩)) ∧
    ([1, 2, 3, 4, 5, 6] : List ℕ) ≠ demoGpu.contents :=
  ⟨rfl, rfl, by decide, rfl, by decide⟩

/-- C2: the claim states that a pitch increment that would push the camera's
accumulated pitch outside `(-π/2, π/2)` is suppressed: at accumulated pitch
`π/2 - ε` a further positive increment leaves the pitch unchanged. The code's
guards (`main.rs` lines 181-190) test the frame-local `rotation` accumulator,
which is zero-initialised every frame, not the camera's accumulated pitch: at
accumulated pitch `halfPi - 1/64` (inside the bound) a `Down` frame with
`dt = 1/64` applies the increment `dt * 3` and the accumulated pitch becomes
`halfPi + 1/32`, past the bound — the increment is applied, not suppressed.
(All values are chosen so the code's `f32` arithmetic is exact and coincides
with this rational evaluation.) -/
theorem c2_pitch_increment_applied_beyond_bound :
    (frameUpdate env0 { Camera.new with ang := ⟨halfPi - 1/64, 0, 0⟩ } (1/64)
        (some [Key.down])).ang.x = halfPi + 1/32 ∧
    (frameUpdate env0 { Camera.new with ang := ⟨halfPi - 1/64, 0, 0⟩ } (1/64)
        (some [Key.down])).ang.x ≠ halfPi - 1/64 ∧
    halfPi - 1/64 < halfPi ∧
    halfPi < halfPi + 1/32 := by
  refine ⟨?_, ?_, ?_, ?_⟩ <;>
    norm_num [frameUpdate, frameInput, keyStep, Camera.set_vars,
      Camera.calculate_view_transformation, Camera.new, Vec3.zero, Vec3.add, halfPi,
      cameraRotationSpeed]

/-- C3: the local-to-world matrix the render loop passes to the raytracing
consumer (`camera.rts()`, modelled from the spec since the method's body is
not among the sources) equals the composition `Scale · Translation ·
Rotation` with the translation by the camera's own position (no offset, no
inversion), the rotation composed as `R_y · R_x · R_z`, and an identity
scale. -/
theorem c3_rts_equals_scale_translation_rotation (env : Env) (c : Camera) :
    Camera.rts env c =
      Mat4.mul (Mat4.scale ⟨1, 1, 1⟩)
        (Mat4.mul (Mat4.translation c.pos)
          (Mat4.mul
            (Mat4.mul (Mat4.rotationY (env.cosQ c.ang.y) (env.sinQ c.ang.y))
              (Mat4.rotationX (env.cosQ c.ang.x) (env.sinQ c.ang.x)))
            (Mat4.rotationZ (env.cosQ c.ang.z) (env.sinQ c.ang.z)))) := rfl

/-- C4: for every camera state, the recomputed view transformation equals
`Projection · Rotation · Translation`, with the translation by the fixed
camera-space offset `(0,0,-5)` minus the position, the rotation composed as
`R_y · R_x · R_z`, and the projection the perspective matrix built from the
stored fov, aspect ratio, near and far; the basis vectors `left`, `up`,
`front` are the normalized 3-component columns 0, 1, 2 of that matrix. -/
theorem c4_view_transformation_formula (env : Env) (c : Camera) :
    (Camera.calculate_view_transformation env c).view_transformation =
      Mat4.mul
        (Mat4.mul (Mat4.perspective env c.aspect c.fov c.z_near c.z_far)
          (Mat4.mul
            (Mat4.mul (Mat4.rotationY (env.cosQ c.ang.y) (env.sinQ c.ang.y))
              (Mat4.rotationX (env.cosQ c.ang.x) (env.sinQ c.ang.x)))
            (Mat4.rotationZ (env.cosQ c.ang.z) (env.sinQ c.ang.z))))
        (Mat4.translation (Vec3.sub ⟨0, 0, -5⟩ c.pos)) ∧
    (Camera.calculate_view_transformation env c).left =
      Vec3.normalize env
        (Mat4.col0xyz (Camera.calculate_view_transformation env c).view_transformation) ∧
    (Camera.calculate_view_transformation env c).up =
      Vec3.normalize env
        (Mat4.col1xyz (Camera.calculate_view_transformation env c).view_transformation) ∧
    (Camera.calculate_view_transformation env c).front =
      Vec3.normalize env
        (Mat4.col2xyz (Camera.calculate_view_transformation env c).view_transformation) :=
  ⟨rfl, rfl, rfl, rfl⟩

/-- C5: a call `set_vars(Some(p), None, None, None, None)` overwrites only the
stored position; the stored orientation, fov, near, far (and aspect ratio)
are unchanged, the derived transform and basis vectors are unconditionally
recomputed (the result is exactly the recomputation applied to the state with
the new position), and the orientation- and optics-derived matrices equal
their pre-call values. -/
theorem c5_set_vars_position_only (env : Env) (c : Camera) (p : Vec3) :
    (Camera.set_vars env c (some p) none none none none).ang = c.ang ∧
    (Camera.set_vars env c (some p) none none none none).fov = c.fov ∧
    (Camera.set_vars env c (some p) none none none none).z_near = c.z_near ∧
    (Camera.set_vars env c (some p) none none none none).z_far = c.z_far ∧
    (Camera.set_vars env c (some p) none none none none).aspect = c.aspect ∧
    (Camera.set_vars env c (some p) none none none none).pos = p ∧
    Camera.set_vars env c (some p) none none none none =
      Camera.calculate_view_transformation env { c with pos := p } ∧
    rotationOf env (Camera.set_vars env c (some p) none none none none).ang =
      rotationOf env c.ang ∧
    Mat4.perspective env (Camera.set_vars env c (some p) none none none none).aspect
        (Camera.set_vars env c (some p) none none none none).fov
        (Camera.set_vars env c (some p) none none none none).z_near
        (Camera.set_vars env c (some p) none none none none).z_far =
      Mat4.perspective env c.aspect c.fov c.z_near c.z_far :=
  ⟨rfl, rfl, rfl, rfl, rfl, rfl, rfl, rfl, rfl⟩

/-- C6: for the shared key-set, pressing an identifier already held leaves the
set unchanged (two presses from empty give a set of size 1), releasing an
identifier not held is a no-op, the set never holds an identifier twice, and
after any event sequence an identifier is held exactly when its last event is
a press — the set contains exactly the identifiers pressed and not
subsequently released. -/
theorem c6_key_set_semantics {α : Type} [DecidableEq α] :
    (∀ (keys : List α) (k : α), k ∈ keys → pressKey keys k = keys) ∧
    (∀ (keys : List α) (k : α), k ∉ keys → releaseKey keys k = keys) ∧
    (∀ k : α, (runEvents [KeyEvent.press k, KeyEvent.press k]).length = 1) ∧
    (∀ evs : List (KeyEvent α), (runEvents evs).Nodup) ∧
    (∀ (evs : List (KeyEvent α)) (k : α),
      k ∈ runEvents evs ↔ lastAction evs k = some true) := by
  refine ⟨?_, ?_, ?_, ?_, ?_⟩
  · intro keys k hk
    simp [pressKey, hk]
  · intro keys k hk
    simp [releaseKey, hk]
  · intro k
    simp [runEvents, handleEvent, pressKey]
  · intro evs
    exact foldl_handleEvent_nodup List.nodup_nil evs
  · intro evs k
    rw [runEvents, mem_foldl_handleEvent List.nodup_nil]
    simp

/-- C7: along any interleaving of the three threads, the fault flag is never
reset from unhealthy to healthy (it is false-stable under every step, hence
along every run), the only transition that changes it is the fault-monitor's
write — which requires the render worker to have terminated and the watcher
not to have fired yet, fires it, and so can happen at most once — and a
control-loop poll that observes the unhealthy value requests the event-loop
exit. -/
theorem c7_fault_flag_single_writer :
    (∀ s s' : SysState, SysStep s s' → s.healthy = false → s'.healthy = false) ∧
    (∀ s s' : SysState, SysStep s s' → s'.healthy ≠ s.healthy →
      s' = watcherStep s ∧ s.renderAlive = false ∧ s.watcherDone = false ∧
        s'.healthy = false ∧ s'.watcherDone = true) ∧
    (∀ s s' : SysState, Relation.ReflTransGen SysStep s s' → s.healthy = false →
      s'.healthy = false) ∧
    (initialSysState.healthy = true) ∧
    (∀ s : SysState, s.healthy = false → (pollStep s).exitRequested = true) := by
  refine ⟨?_, ?_, ?_, rfl, ?_⟩
  · intro s s' h hh
    exact sysstep_healthy_mono h hh
  · intro s s' h hne
    exact sysstep_healthy_writer h hne
  · intro s s' h hh
    exact reflTransGen_healthy_mono h hh
  · intro s h
    simp [pollStep, h]

/-- C8: a frame whose key-set lock acquisition fails proceeds exactly as if
the held-key set were empty: the movement and rotation deltas are both the
zero vector, and the whole frame's camera update equals the one computed from
an empty snapshot — the failure is absorbed, not propagated (the fold is a
total function with no failing path). -/
theorem c8_lock_failure_is_empty_frame (env : Env) (cam : Camera) (dt : ℚ) :
    frameInput cam dt none = (Vec3.zero, Vec3.zero) ∧
    frameInput cam dt none = frameInput cam dt (some []) ∧
    frameUpdate env cam dt none = frameUpdate env cam dt (some []) :=
  ⟨rfl, rfl, rfl⟩

/-- C9: calling `SSBOBuilder::set_data` or `SSBO::update_data` with an empty
vector panics inside `pointer_to_array` (`&val[0]` on an empty slice) before
any GL buffer call is issued (the recorded trace is empty); with a non-empty
vector `pointer_to_array` yields the first element, `byte_size_of_array`
yields the element count times the element size, and both calls complete
normally with their GL sequence issued. -/
theorem c9_empty_payload_panics_before_gl :
    (∀ (T : Type) (v : T) (vs : List T), pointer_to_array (v :: vs) = .ok v) ∧
    (∀ (T : Type) (l : List T) (recSize : ℕ),
      byte_size_of_array l recSize = l.length * recSize) ∧
    (∀ (T : Type) (b : SSBOBuilder T) (recSize : ℕ),
      SSBOBuilder.set_data b recSize [] =
        ([], .error "index out of bounds: the len is 0 but the index is 0")) ∧
    (∀ (T : Type) (s : SSBO T) (g : GpuBuffer T) (recSize : ℕ),
      SSBO.update_data s g recSize [] =
        ([], .error "index out of bounds: the len is 0 but the index is 0")) ∧
    (∀ (T : Type) (b : SSBOBuilder T) (recSize : ℕ) (v : T) (vs : List T),
      SSBOBuilder.set_data b recSize (v :: vs) =
        ([.bindBuffer b.bid, .bufferData (byte_size_of_array (v :: vs) recSize),
          .bindBuffer 0],
         .ok (b, ⟨v :: vs, byte_size_of_array (v :: vs) recSize⟩))) ∧
    (∀ (T : Type) (s : SSBO T) (g : GpuBuffer T) (recSize : ℕ) (v : T) (vs : List T),
      SSBO.update_data s g recSize (v :: vs) =
        ([.bindBuffer s.bid, .mapWrite (byte_size_of_array (v :: vs) recSize), .unmap,
          .bindBuffer 0],
         .ok (s, { g with contents := (v :: vs) ++ g.contents.drop (v :: vs).length }))) :=
  ⟨fun _ _ _ => rfl, fun _ _ _ => rfl, fun _ _ _ => rfl, fun _ _ _ _ => rfl,
   fun _ _ _ _ _ => rfl, fun _ _ _ _ _ _ => rfl⟩

/-- C10: a camera fresh from `Camera::new()` stores fov 90, near 1, far 1000
and aspect 16/9, yet its derived state is inconsistent with them: the view
transformation is the identity and all three basis vectors are the zero
vector; for every trigonometric environment with `cos 0 = 1` and `sin 0 = 0`
the recomputation from the stored parameters differs from the stored identity
matrix, and every `set_vars` or `set_view_params` call leaves the camera a
fixed point of the recomputation (consistency is established by the first
setter call). -/
theorem c10_new_camera_derived_state_inconsistent :
    Camera.new.view_transformation = Mat4.identity ∧
    Camera.new.left = Vec3.zero ∧
    Camera.new.up = Vec3.zero ∧
    Camera.new.front = Vec3.zero ∧
    Camera.new.fov = 90 ∧
    Camera.new.z_near = 1 ∧
    Camera.new.z_far = 1000 ∧
    Camera.new.aspect = 16 / 9 ∧
    (∀ env : Env, env.cosQ 0 = 1 → env.sinQ 0 = 0 →
      (Camera.calculate_view_transformation env Camera.new).view_transformation ≠
        Camera.new.view_transformation) ∧
    (∀ (env : Env) (p a : Option Vec3) (f n fa : Option ℚ),
      Camera.set_vars env Camera.new p a f n fa =
        Camera.calculate_view_transformation env
          (Camera.set_vars env Camera.new p a f n fa)) ∧
    (∀ (env : Env) (p a : Vec3) (f n fa : ℚ),
      Camera.set_view_params env Camera.new p a f n fa =
        Camera.calculate_view_transformation env
          (Camera.set_view_params env Camera.new p a f n fa)) := by
  refine ⟨rfl, rfl, rfl, rfl, rfl, rfl, rfl, rfl, ?_, ?_, ?_⟩
  · intro env h1 h2 hEq
    have hm : (Camera.calculate_view_transformation env Camera.new).view_transformation.m32
        = -1 := by
      simp [Camera.calculate_view_transformation, Camera.new, Mat4.mul, Mat4.perspective,
        Mat4.translation, rotationOf, Mat4.rotationX, Mat4.rotationY, Mat4.rotationZ,
        Vec3.zero, Vec3.sub, h1, h2]
    rw [hEq] at hm
    norm_num [Camera.new, Mat4.identity] at hm
  · intro env p a f n fa
    cases p <;> cases a <;> cases f <;> cases n <;> cases fa <;> rfl
  · intro env p a f n fa
    rfl

end RTEngine
